import Mathlib

/-!
Shallow embedding of the Apollo AI backend analysis core
(`app/core/analyzer.py` and `app/core/chart_recommender.py`) and proofs
about its column-type classifier, quality scorer, statistical tests,
correlation analysis and chart recommender.

Scalar cell values of a loaded pandas table are modelled by `Value`:
integer-dtype cells, float-dtype cells (exact rationals standing for the
IEEE doubles that arise), string cells, and nulls (NaN).  Python string
rendering (`astype(str)`), numeric coercion (`pd.to_numeric`) and date
parsing (`pd.to_datetime`) are modelled by executable functions over
these values; the date parser covers the ISO `YYYY-MM-DD` form used in
this development and rejects everything else, mirroring the fact that
`pd.to_datetime(..., errors='raise')` rejects non-date strings.
-/

namespace Apollo

/-- `ColumnType` enum from `app/models/schemas.py`. -/
inductive ColumnType
  | numeric
  | categorical
  | datetime
  | text
  | boolean
deriving DecidableEq, Repr

/-- `ChartType` enum from `app/models/schemas.py`. -/
inductive ChartType
  | histogram
  | bar_chart
  | line_chart
  | scatter_plot
  | box_plot
  | pie_chart
  | heatmap
  | violin_plot
  | density_plot
  | stacked_bar
  | grouped_bar
  | area_chart
deriving DecidableEq, Repr

/-- A scalar cell of a loaded table: integer-dtype value, float-dtype
value (exact rational stand-in for the IEEE double), string, or null
(pandas `NaN`). -/
inductive Value
  | vInt (n : ℤ)
  | vFloat (q : ℚ)
  | vStr (s : String)
  | vNull
deriving DecidableEq, Repr

namespace Value

/-- Numeric value carried by a cell, if the cell is of numeric dtype. -/
def numVal : Value → Option ℚ
  | vInt n => some (n : ℚ)
  | vFloat q => some q
  | vStr _ => none
  | vNull => none

/-- Whether the cell is a numeric-dtype scalar (int or float). -/
def isNum : Value → Bool
  | vInt _ => true
  | vFloat _ => true
  | _ => false

end Value

/-- Digits after the decimal point of a nonnegative rational `q < 1`,
most significant first, stopping when the remainder is zero (at most
`fuel` digits).  Models the fractional digits of Python float `repr`
for the terminating decimals that occur here. -/
def fracDigits : ℚ → ℕ → List ℕ
  | _, 0 => []
  | q, k + 1 =>
    if q = 0 then []
    else
      let q10 := q * 10
      q10.floor.toNat :: fracDigits (q10 - q10.floor) k

/-- Rendering of a nonnegative float value as Python `str` renders it:
integer part, a point, then the fractional digits (at least one, `"0"`
for integral values). -/
def pyFloatStrNonneg (q : ℚ) : String :=
  let ip := q.floor.toNat
  let ds := fracDigits (q - q.floor) 17
  let frac := if ds.isEmpty then "0" else String.join (ds.map (fun d => toString d))
  toString ip ++ "." ++ frac

/-- Rendering of a float value as Python `str` renders it
(`str(0.0) = "0.0"`, `str(-2.5) = "-2.5"`). -/
def pyFloatStr (q : ℚ) : String :=
  if q < 0 then "-" ++ pyFloatStrNonneg (-q) else pyFloatStrNonneg q

/-- Python `str` of a cell, as produced by `Series.astype(str)`:
int64 cells render without a decimal point, float64 cells with one,
strings render as themselves, `NaN` renders as `"nan"`. -/
def pyStr : Value → String
  | Value.vInt n => toString n
  | Value.vFloat q => pyFloatStr q
  | Value.vStr s => s
  | Value.vNull => "nan"

/-- Parse a nonempty list of decimal digit characters. -/
def digitsVal : List Char → Option ℕ
  | [] => none
  | cs =>
    if cs.all Char.isDigit then
      some (cs.foldl (fun acc c => 10 * acc + (c.toNat - '0'.toNat)) 0)
    else none

/-- Unsigned decimal-literal parser: digits with an optional single
point (`"12"`, `"12.5"`, `"12."`, `".5"`).  Models the strings accepted
by `pd.to_numeric(..., errors='raise')` in the decimal forms relevant
here. -/
def parseUnsignedNumeric (cs : List Char) : Option ℚ :=
  match cs.splitOn '.' with
  | [ds] => (digitsVal ds).map (fun n => (n : ℚ))
  | [ds, fs] =>
    if ds.isEmpty ∧ fs.isEmpty then none
    else if (ds.all Char.isDigit) ∧ (fs.all Char.isDigit) ∧ ¬(ds.isEmpty ∧ fs.isEmpty) then
      some ((ds.foldl (fun acc c => 10 * acc + (c.toNat - '0'.toNat)) 0 : ℕ) +
            (fs.foldl (fun acc c => 10 * acc + (c.toNat - '0'.toNat)) 0 : ℕ) / (10 : ℚ) ^ fs.length)
    else none
  | _ => none

/-- Numeric coercion of a string, modelling `pd.to_numeric` /
`float(...)` on the decimal literal forms. -/
def parseNumeric (s : String) : Option ℚ :=
  match s.data with
  | [] => none
  | '-' :: rest => (parseUnsignedNumeric rest).map Neg.neg
  | '+' :: rest => parseUnsignedNumeric rest
  | cs => parseUnsignedNumeric cs

/-- `pd.to_numeric(cell, errors='raise')` on a non-null cell: numeric
cells pass through, strings must parse. -/
def coerceNum : Value → Option ℚ
  | Value.vInt n => some (n : ℚ)
  | Value.vFloat q => some q
  | Value.vStr s => parseNumeric s
  | Value.vNull => none

/-- Whether `pd.to_numeric(cell, errors='raise')` succeeds on a cell of
a full (not null-dropped) column: nulls pass through as `NaN`. -/
def coerceOkOrNull (v : Value) : Bool :=
  match v with
  | Value.vNull => true
  | v => (coerceNum v).isSome

/-- Year of `pd.to_datetime(cell, errors='raise')`, when parsing
succeeds.  Strings parse in the ISO `YYYY-MM-DD` form; numeric cells
parse as nanosecond offsets from the epoch, hence land in 1970. -/
def parseYear : Value → Option ℤ
  | Value.vInt _ => some 1970
  | Value.vFloat _ => some 1970
  | Value.vStr s =>
    match s.data.splitOn '-' with
    | [ys, ms, ds] =>
      match digitsVal ys, digitsVal ms, digitsVal ds with
      | some y, some m, some d =>
        if ys.length = 4 ∧ 1 ≤ m ∧ m ≤ 12 ∧ 1 ≤ d ∧ d ≤ 31 then some (y : ℤ) else none
      | _, _, _ => none
    | _ => none
  | Value.vNull => none

/-- `Series.dropna()`. -/
def dropna (col : List Value) : List Value :=
  col.filter (fun v => v ≠ Value.vNull)

/-- Python value equality between cells (numeric cells compare by
value across int/float, as in Python's `==`/hashing used by
`nunique` and `duplicated`). -/
def pyEq (a b : Value) : Bool :=
  match a.numVal, b.numVal with
  | some x, some y => x = y
  | _, _ => a = b

/-- Distinct members of a list under `pyEq`. -/
def dedupPy : List Value → List Value
  | [] => []
  | v :: vs =>
    let r := dedupPy vs
    if r.any (pyEq v) then r else v :: r

/-- `Series.nunique()`: number of distinct non-null values. -/
def nunique (col : List Value) : ℕ :=
  (dedupPy (dropna col)).length

/-- The canonical boolean string pairs of `_is_boolean_column`. -/
def boolean_patterns : List (List String) :=
  [["true", "false"], ["yes", "no"], ["y", "n"], ["1", "0"], ["on", "off"]]

/-- `DataAnalyzer._is_boolean_column`: the set of distinct values,
rendered to lowercase strings, is a subset of one of the canonical
pairs.  Input is the null-dropped column, as at the call site. -/
def is_boolean_column (col : List Value) : Bool :=
  let uniq := (col.map (fun v => (pyStr v).toLower)).dedup
  boolean_patterns.any (fun pat => uniq.all (fun s => s ∈ pat))

/-- `DataAnalyzer._is_numerical_column`: the column is of numeric dtype
already, or every non-null value coerces to a number. -/
def is_numerical_column (col : List Value) : Bool :=
  col.all Value.isNum || col.all (fun v => (coerceNum v).isSome)

/-- `DataAnalyzer._is_datetime_column`, with the randomly drawn sample
passed explicitly (the source draws `col_data.sample(10)` with no seed
when the column has more than 10 non-null values).  All sampled values
must parse as dates and the three guards must hold: more than one
distinct year, all years within [1900, 2030], and a date-like lexical
marker in the concatenated lowercased sample strings. -/
def is_datetime_column (sample : List Value) : Bool :=
  match sample.mapM parseYear with
  | none => false
  | some years =>
    if sample.isEmpty then true
    else
      let uniqYears := years.dedup
      if uniqYears.length ≤ 1 then false
      else if years.any (fun y => y < 1900) ∨ years.any (fun y => y > 2030) then false
      else
        let catChars := (sample.map (fun v => (pyStr v).toLower.data)).flatten
        let monthAbbrevs : List (List Char) :=
          [['j','a','n'], ['f','e','b'], ['m','a','r'], ['a','p','r'], ['m','a','y'],
           ['j','u','n'], ['j','u','l'], ['a','u','g'], ['s','e','p'], ['o','c','t'],
           ['n','o','v'], ['d','e','c']]
        let hasSub (needle : List Char) : Bool :=
          (List.range (catChars.length + 1)).any (fun i => (catChars.drop i).take needle.length = needle)
        catChars.any (fun c => c = '/' ∨ c = '-' ∨ c = ':') || monthAbbrevs.any hasSub

/-- `Settings.MAX_CATEGORIES`. -/
def MAX_CATEGORIES : ℕ := 50

/-- `Settings.SIGNIFICANCE_LEVEL`. -/
def SIGNIFICANCE_LEVEL : ℚ := 1 / 20

/-- `DataAnalyzer._is_categorical_column`: distinct count at most
`MAX_CATEGORIES` and distinct/total ratio below one half. -/
def is_categorical_column (col : List Value) : Bool :=
  nunique col ≤ MAX_CATEGORIES ∧ (nunique col : ℚ) / (col.length : ℚ) < 1 / 2

/-- One iteration of `DataAnalyzer._detect_column_types` for a raw
column, with the datetime check's random sample passed explicitly.
The ordered chain: all-null → text; boolean; numeric; datetime;
categorical; otherwise text. -/
def detect_column_type (colRaw : List Value) (sample : List Value) : ColumnType :=
  let col := dropna colRaw
  if col.isEmpty then ColumnType.text
  else if is_boolean_column col then ColumnType.boolean
  else if is_numerical_column col then ColumnType.numeric
  else if is_datetime_column sample then ColumnType.datetime
  else if is_categorical_column col then ColumnType.categorical
  else ColumnType.text

/-- The sample the source's datetime check may draw for a column whose
null-dropped values are `col`: with more than 10 values, any
sub-multiset of size 10 (`Series.sample` with no fixed seed);
otherwise exactly the column itself. -/
def validSampleB (col sample : List Value) : Bool :=
  if 10 < col.length then
    sample.length = 10 && sample.all (fun v => sample.count v ≤ col.count v)
  else sample = col

/-- Propositional form of `validSampleB`. -/
def ValidSample (col sample : List Value) : Prop :=
  validSampleB col sample = true

instance (col sample : List Value) : Decidable (ValidSample col sample) :=
  inferInstanceAs (Decidable (validSampleB col sample = true))

/-- Classification of a column with at most 10 non-null values, where
the datetime sample is the column itself and no randomness enters. -/
def detectShort (colRaw : List Value) : ColumnType :=
  detect_column_type colRaw (dropna colRaw)

/-! ### Loaded tables and the data quality scorer -/

/-- A loaded table: named columns of cells (all of one length in the
tables pandas produces). -/
structure DataFrame where
  cols : List (String × List Value)
deriving DecidableEq, Repr

/-- `len(self.df)`: the row count. -/
def DataFrame.nrows (df : DataFrame) : ℕ :=
  match df.cols with
  | [] => 0
  | c :: _ => c.2.length

/-- `self.df[name]`: the cells of a named column (first match; empty
for a missing name). -/
def DataFrame.get (df : DataFrame) (name : String) : List Value :=
  (List.lookup name df.cols).getD []

/-- The rows of the table, for `DataFrame.duplicated`. -/
def DataFrame.rows (df : DataFrame) : List (List Value) :=
  (List.range df.nrows).map (fun i => df.cols.map (fun c => c.2.getD i Value.vNull))

/-- Row equality as pandas `duplicated` compares rows (`NaN` equal to
`NaN`, numeric cells by value). -/
def rowEq (a b : List Value) : Bool :=
  a.length = b.length && (a.zip b).all (fun p => pyEq p.1 p.2)

/-- Rows that repeat an earlier row (`duplicated(keep='first').sum()`). -/
def dupCountAux (seen : List (List Value)) : List (List Value) → ℕ
  | [] => 0
  | r :: rs => (if seen.any (fun s => rowEq s r) then 1 else 0) + dupCountAux (r :: seen) rs

/-- `self.df.duplicated().sum()`. -/
def duplicatedSum (df : DataFrame) : ℕ :=
  dupCountAux [] df.rows

/-- Number of null cells of a column (`isnull().sum()`). -/
def countNulls (col : List Value) : ℕ :=
  (col.filter (fun v => v = Value.vNull)).length

/-- Percentage of missing values of a column over `n` rows. -/
def missingPct (col : List Value) (n : ℕ) : ℚ :=
  ((countNulls col : ℚ) / (n : ℚ)) * 100

/-- The recommendation events of `calculate_data_quality_score`,
abstracting the formatted message strings by which rule fired (and for
the per-column rules, on which column). -/
inductive QualityRec
  | missingHigh (col : String)
  | missingMed (col : String)
  | duplicates
  | lowVariety
  | smallData
  | goodQuality
  | moderateQuality
  | needsImprovement
deriving DecidableEq, Repr

/-- Missing-value pass of `calculate_data_quality_score` for one
column: −15 above 50% missing, −5 above 20%, with the matching
recommendation. -/
def missingStep (n : ℕ) (acc : ℚ × List QualityRec) (c : String × List Value) : ℚ × List QualityRec :=
  let pct := missingPct c.2 n
  if 50 < pct then (acc.1 - 15, acc.2 ++ [QualityRec.missingHigh c.1])
  else if 20 < pct then (acc.1 - 5, acc.2 ++ [QualityRec.missingMed c.1])
  else acc

/-- `DataAnalyzer.calculate_data_quality_score`: start from 100,
subtract missing-value penalties per column, the duplicate-row penalty
(duplicate percentage capped at 20), −10 when the table has fewer than
3 columns (`len(self.column_types) < 3` — one dict key per column),
−15 when the row count is below 100; append the closing remark keyed
by the pre-clamp score and clamp the returned score at 0. -/
def calculate_data_quality_score (df : DataFrame) : ℚ × List QualityRec :=
  let n := df.nrows
  let s1 := df.cols.foldl (missingStep n) (100, [])
  let dc := duplicatedSum df
  let s2 := if 0 < dc then (s1.1 - min 20 ((dc : ℚ) / (n : ℚ) * 100), s1.2 ++ [QualityRec.duplicates]) else s1
  let s3 := if df.cols.length < 3 then (s2.1 - 10, s2.2 ++ [QualityRec.lowVariety]) else s2
  let s4 := if n < 100 then (s3.1 - 15, s3.2 ++ [QualityRec.smallData]) else s3
  let closing := if 80 < s4.1 then QualityRec.goodQuality
                 else if 60 < s4.1 then QualityRec.moderateQuality
                 else QualityRec.needsImprovement
  (max 0 s4.1, s4.2 ++ [closing])

/-- Detected type of every column of a table (columns small enough
that the datetime sample is the whole column). -/
def detectedTypesShort (df : DataFrame) : List ColumnType :=
  df.cols.map (fun c => detectShort c.2)

/-- Number of distinct ColumnTypes appearing among the columns. -/
def numDistinctTypesShort (df : DataFrame) : ℕ :=
  (detectedTypesShort df).dedup.length

/-! ### Descriptive statistics for numeric columns -/

/-- `pd.to_numeric(col, errors='coerce').dropna()`: numeric cells pass
through, parseable strings coerce, everything else becomes `NaN` and
is dropped. -/
def coerceDropna (col : List Value) : List ℚ :=
  col.filterMap (fun v => match v with
    | Value.vNull => none
    | v => coerceNum v)

/-- Mean of a list of rationals (`Series.mean`). -/
def meanQ (xs : List ℚ) : ℚ :=
  xs.sum / (xs.length : ℚ)

/-- Sum of squared deviations from the mean. -/
def sumSqDev (xs : List ℚ) : ℚ :=
  (xs.map (fun x => (x - meanQ xs) ^ 2)).sum

/-- Square of pandas `Series.std()` (the default `ddof=1` sample
standard deviation): sum of squared deviations divided by `n − 1`,
undefined (`NaN`) for fewer than two values. -/
def varSample (xs : List ℚ) : Option ℚ :=
  if 2 ≤ xs.length then some (sumSqDev xs / ((xs.length : ℚ) - 1)) else none

/-- Square of the population standard deviation: sum of squared
deviations divided by `n`. -/
def varPop (xs : List ℚ) : ℚ :=
  sumSqDev xs / (xs.length : ℚ)

/-- The fields of `NumericalStats` that this development reasons
about; `std_sq` is the square of the reported `std` (stated on squares
because two nonnegative standard deviations are equal exactly when
their squares are). -/
structure NumericalStatsM where
  count : ℕ
  mean : ℚ
  std_sq : Option ℚ
deriving DecidableEq, Repr

/-- `DataAnalyzer.analyze_numerical_columns`: for each column typed
numeric, coerce to numbers and drop failures; skip columns empty after
coercion; report count, mean and (squared) `Series.std()`. -/
def analyze_numerical_columns (df : DataFrame) (types : List (String × ColumnType)) :
    List (String × NumericalStatsM) :=
  (types.filter (fun t => t.2 = ColumnType.numeric)).filterMap (fun t =>
    let cd := coerceDropna (df.get t.1)
    if cd.length = 0 then none
    else some (t.1, ⟨cd.length, meanQ cd, varSample cd⟩))

/-! ### Statistical tests -/

/-- The fields of `StatisticalTest` built by the chi-square branch of
`perform_statistical_tests`. -/
structure StatisticalTestM where
  test_name : String
  statistic : ℚ
  p_value : ℚ
  significant : Bool
  interpretation : String
deriving DecidableEq, Repr

/-- The `StatisticalTest` the chi-square branch of
`perform_statistical_tests` builds for a categorical pair, given the
statistic and p-value scipy's `chi2_contingency` returned:
`significant = p < level` and the interpretation inserts `"not "`
exactly when `p >= level`. -/
def chiSquareTestResult (c1 c2 : String) (chi2 p level : ℚ) : StatisticalTestM :=
  { test_name := "Chi-square Independence Test (" ++ c1 ++ " vs " ++ c2 ++ ")"
  , statistic := chi2
  , p_value := p
  , significant := decide (p < level)
  , interpretation := "Variables are " ++ (if level ≤ p then "not " else "") ++ "independent" }

/-! ### Correlation analysis -/

/-- Pairwise complete observations of two numeric-dtype columns: rows
where both cells carry a number. -/
def pairedObs (c1 c2 : List Value) : List (ℚ × ℚ) :=
  (c1.zip c2).filterMap (fun p => match p.1.numVal, p.2.numVal with
    | some x, some y => some (x, y)
    | _, _ => none)

/-- A Pearson correlation value `r`, encoded exactly as the pair
(sign of the covariance, `r²`).  The encoding determines `r` (it is
`sign · √(r²)`), so two entries are equal as floats exactly when their
encodings are equal, and an entry equals `1.0` exactly when its
encoding is `(1, 1)`. -/
abbrev CorrEntry := Option (ℤ × ℚ)

/-- The `nancorr` computation on a list of pairwise complete
observations: `NaN` (encoded `none`) when there are no observations or
a zero divisor (a constant column), else the encoded
`cov / √(sxx·syy)`. -/
def corrKernel (ps : List (ℚ × ℚ)) : CorrEntry :=
  if ps.length = 0 then none
  else
    let mx : ℚ := meanQ (ps.map Prod.fst)
    let my : ℚ := meanQ (ps.map Prod.snd)
    let sxx : ℚ := (ps.map (fun p => (p.1 - mx) ^ 2)).sum
    let syy : ℚ := (ps.map (fun p => (p.2 - my) ^ 2)).sum
    let sxy : ℚ := (ps.map (fun p => (p.1 - mx) * (p.2 - my))).sum
    if sxx * syy = 0 then none
    else some (if 0 < sxy then 1 else if sxy < 0 then -1 else 0, sxy ^ 2 / (sxx * syy))

/-- One cell of pandas `DataFrame.corr()`: the `nancorr` kernel on the
pairwise complete observations of the two columns. -/
def corrEntry (c1 c2 : List Value) : CorrEntry :=
  corrKernel (pairedObs c1 c2)

/-- A correlation matrix as the nested dict `analyze_correlations`
builds: outer column name → inner column name → entry. -/
abbrev CorrMatrix := List (String × List (String × CorrEntry))

instance decEqCorrMatrixRow : DecidableEq (String × List (String × CorrEntry)) :=
  inferInstance

instance decEqCorrMatrix : DecidableEq CorrMatrix :=
  inferInstance

/-- `DataAnalyzer.analyze_correlations`: `None` with fewer than two
columns typed numeric; restrict to the numeric-dtype ones
(`select_dtypes` drops string-backed columns that were classified
numeric by coercion); `None` when that selection is empty; else the
full pairwise matrix. -/
def analyze_correlations (df : DataFrame) (types : List (String × ColumnType)) :
    Option CorrMatrix :=
  let numericalCols := (types.filter (fun t => t.2 = ColumnType.numeric)).map Prod.fst
  if numericalCols.length < 2 then none
  else
    let numDtype := numericalCols.filter (fun name =>
      (df.get name).all (fun v => v.isNum || v = Value.vNull))
    if numDtype.isEmpty ∨ df.nrows = 0 then none
    else some (numDtype.map (fun a =>
      (a, numDtype.map (fun b => (b, corrEntry (df.get a) (df.get b))))))

/-- Entry of the nested correlation dict at a pair of column names. -/
def matLookup (m : CorrMatrix) (a b : String) : Option CorrEntry :=
  (List.lookup a m).bind (fun row => List.lookup b row)

/-! ### Chart recommender (`app/core/chart_recommender.py`) -/

/-- One entry of the static chart rule table: required ColumnType(s),
minimum distinct count, optional maximum distinct count, minimum
sample size. -/
structure ChartRule where
  primary_type : List ColumnType
  min_unique : ℕ
  max_unique : Option ℕ
  sample_size : ℕ
deriving DecidableEq, Repr

/-- `ChartRecommender._initialize_chart_rules`, in dict insertion
order. -/
def chart_rules : List (ChartType × ChartRule) :=
  [ (ChartType.histogram, ⟨[ColumnType.numeric], 5, none, 10⟩)
  , (ChartType.bar_chart, ⟨[ColumnType.categorical], 2, some 20, 5⟩)
  , (ChartType.line_chart, ⟨[ColumnType.datetime, ColumnType.numeric], 3, none, 10⟩)
  , (ChartType.scatter_plot, ⟨[ColumnType.numeric], 10, none, 20⟩)
  , (ChartType.box_plot, ⟨[ColumnType.numeric], 5, none, 10⟩)
  , (ChartType.pie_chart, ⟨[ColumnType.categorical], 2, some 8, 5⟩)
  , (ChartType.heatmap, ⟨[ColumnType.numeric, ColumnType.categorical], 3, some 50, 10⟩)
  , (ChartType.violin_plot, ⟨[ColumnType.numeric], 5, none, 15⟩)
  , (ChartType.density_plot, ⟨[ColumnType.numeric], 10, none, 20⟩) ]

/-- Whether the distinct count is below the rule's maximum (or no
maximum is set). -/
def maxUniqueOk (r : ChartRule) (u : ℕ) : Bool :=
  match r.max_unique with
  | none => true
  | some m => u ≤ m

/-- `ChartRecommender._calculate_chart_score`: lines 239-258 accumulate
the weighted score (+0.4 for a type match, +0.2 for meeting the
minimum distinct count and a further +0.2 when also under the maximum,
+0.2 for meeting the sample size), but the bonus chain at line 261
then evaluates `ChartType.HISTOGRAM.value` — the `ChartType` enum of
`app/models/schemas.py` has only lowercase members — so every call
raises `AttributeError: HISTOGRAM` before the bonus or the
`min(1.0, score)` cap is reached, and no score is ever returned. -/
def calculate_chart_score (_ct : ChartType) (r : ChartRule) (colType : ColumnType)
    (dataLen u : ℕ) : Except String ℚ :=
  let _score : ℚ :=
    (if colType ∈ r.primary_type then 2 / 5 else 0)
    + (if r.min_unique ≤ u then 1 / 5 else 0)
    + (if r.min_unique ≤ u ∧ maxUniqueOk r u then 1 / 5 else 0)
    + (if r.sample_size ≤ dataLen then 1 / 5 else 0)
  Except.error "HISTOGRAM"

instance exceptDecEq {ε α : Type} [DecidableEq ε] [DecidableEq α] :
    DecidableEq (Except ε α)
  | Except.ok x, Except.ok y =>
    if h : x = y then isTrue (h ▸ rfl) else isFalse (fun hc => h (Except.ok.inj hc))
  | Except.error e, Except.error f =>
    if h : e = f then isTrue (h ▸ rfl) else isFalse (fun hc => h (Except.error.inj hc))
  | Except.ok _, Except.error _ => isFalse (fun hc => Except.noConfusion hc)
  | Except.error _, Except.ok _ => isFalse (fun hc => Except.noConfusion hc)

/-- A single-column recommendation dict as the loop body of
`recommend_charts_for_column` would build it (that dict does carry a
`suitable` key equal to `score >= 0.7`). -/
structure SingleRec where
  chart_type : ChartType
  score : ℚ
  suitable : Bool
deriving DecidableEq, Repr

/-- The rules loop of `recommend_charts_for_column`: score each rule
in table order, keep positive scores with `suitable = score ≥ 0.7`,
propagating a raise out of `_calculate_chart_score`.  Since every
`_calculate_chart_score` call raises, the loop errors at its first
iteration whenever the rule table is nonempty. -/
def scoreRules (colType : ColumnType) (dataLen u : ℕ) :
    List (ChartType × ChartRule) → Except String (List SingleRec)
  | [] => Except.ok []
  | (ct, r) :: rest => do
    let s ← calculate_chart_score ct r colType dataLen u
    let tail ← scoreRules colType dataLen u rest
    if 0 < s then
      return (⟨ct, s, decide ((7 : ℚ) / 10 ≤ s)⟩ : SingleRec) :: tail
    else
      return tail

/-- `ChartRecommender.recommend_charts_for_column`: returns the empty
list for an all-null column — the early return precedes any enum
access — and for any non-empty column the first loop iteration calls
`_calculate_chart_score`, which raises `AttributeError: HISTOGRAM`;
the descending stable sort of the dead code never runs on a non-empty
column. -/
def recommend_charts_for_column (col : List Value) (colType : ColumnType) :
    Except String (List SingleRec) :=
  let nn := dropna col
  if nn.isEmpty then Except.ok []
  else do
    let recs ← scoreRules colType nn.length (nunique nn) chart_rules
    return recs.mergeSort (fun a b => decide (b.score ≤ a.score))

/-- A combination recommendation dict as the appends at lines 188-194,
200-206, 212-218 and 222-228 would build it: chart type, columns and a
fixed score, with no `suitable` key (modelled `none`).  The appended
dict literals open with an uppercase `ChartType` access, so none is
ever completed. -/
structure ComboRec where
  chart_type : ChartType
  columns : List String
  score : ℚ
  suitable : Option Bool
deriving DecidableEq, Repr

/-- The structure `recommend_charts_for_dataset` would return. -/
structure DatasetRecs where
  single_column : List (String × List SingleRec)
  two_column : List ComboRec
  multi_column : List ComboRec
deriving DecidableEq, Repr

instance decEqExceptSingleRecs : DecidableEq (Except String (List SingleRec)) :=
  inferInstance

instance decEqExceptDatasetRecs : DecidableEq (Except String DatasetRecs) :=
  inferInstance

/-- `ChartRecommender._is_suitable_for_scatter`: both columns have at
least 10 non-null values and both coerce to numeric. -/
def is_suitable_for_scatter (c1 c2 : List Value) : Bool :=
  let n1 := dropna c1
  let n2 := dropna c2
  if n1.length < 10 ∨ n2.length < 10 then false
  else n1.all (fun v => (coerceNum v).isSome) && n2.all (fun v => (coerceNum v).isSome)

/-- `ChartRecommender._is_suitable_for_grouped_bar`: at most 15
distinct categories and the numeric column coerces (nulls pass
through `pd.to_numeric` as `NaN`). -/
def is_suitable_for_grouped_bar (catCol numCol : List Value) : Bool :=
  if 15 < nunique catCol then false
  else numCol.all coerceOkOrNull

/-- `ChartRecommender._is_suitable_for_line`: the datetime column
parses with `pd.to_datetime` and the numeric column coerces. -/
def is_suitable_for_line (dtCol numCol : List Value) : Bool :=
  dtCol.all (fun v => v = Value.vNull || (parseYear v).isSome) && numCol.all coerceOkOrNull

/-- Ordered pairs `(l[i], l[j])` with `i < j`, as the nested
`for i, col1 ... for col2 in l[i+1:]` loops enumerate them. -/
def orderedPairs {α : Type} : List α → List (α × α)
  | [] => []
  | x :: xs => xs.map (fun y => (x, y)) ++ orderedPairs xs

/-- The single-column pass of `recommend_charts_for_dataset` (lines
172-177): one `recommend_charts_for_column` call per table column
present in the type map, in column order, propagating the first
raise. -/
def singleColumnPass (types : List (String × ColumnType)) :
    List (String × List Value) → Except String (List (String × List SingleRec))
  | [] => Except.ok []
  | c :: rest =>
    match List.lookup c.1 types with
    | none => singleColumnPass types rest
    | some t => do
      let recs ← recommend_charts_for_column c.2 t
      let tail ← singleColumnPass types rest
      return (c.1, recs) :: tail

/-- The scatter loop (lines 185-194): the append for the first
suitable numeric pair evaluates `ChartType.SCATTER_PLOT.value`, a
member the lowercase enum lacks, and raises; with no suitable pair
the loop contributes nothing. -/
def scatterPass (df : DataFrame) (pairs : List (String × String)) :
    Except String (List ComboRec) :=
  if pairs.any (fun p => is_suitable_for_scatter (df.get p.1) (df.get p.2))
  then Except.error "SCATTER_PLOT"
  else Except.ok []

/-- The grouped-bar loop (lines 197-206) over the FIRST 5 categorical
and FIRST 3 numeric columns: the append for the first suitable pair
raises at `ChartType.GROUPED_BAR.value`. -/
def groupedBarPass (df : DataFrame) (cats nums : List String) :
    Except String (List ComboRec) :=
  if cats.any (fun c => nums.any (fun nu => is_suitable_for_grouped_bar (df.get c) (df.get nu)))
  then Except.error "GROUPED_BAR"
  else Except.ok []

/-- The line-chart loop (lines 209-218): the append for the first
suitable datetime/numeric pair raises at `ChartType.LINE_CHART.value`. -/
def lineChartPass (df : DataFrame) (dts nums : List String) :
    Except String (List ComboRec) :=
  if dts.any (fun dt => nums.any (fun nu => is_suitable_for_line (df.get dt) (df.get nu)))
  then Except.error "LINE_CHART"
  else Except.ok []

/-- The multi-column branch (lines 221-228): with at least 3 numeric
columns the heatmap append raises at `ChartType.HEATMAP.value`. -/
def multiColumnPass (nums : List String) : Except String (List ComboRec) :=
  if 3 ≤ nums.length then Except.error "HEATMAP"
  else Except.ok []

/-- `ChartRecommender.recommend_charts_for_dataset`: the single-column
pass, then the scatter, grouped-bar, line and heatmap combination
branches in source order, propagating the first `AttributeError`.
Any non-empty typed column makes the single-column pass raise
`HISTOGRAM`; each combination branch raises on its first qualifying
combination, so a successfully returned value can only carry empty
combination lists. -/
def recommend_charts_for_dataset (df : DataFrame) (types : List (String × ColumnType)) :
    Except String DatasetRecs := do
  let single ← singleColumnPass types df.cols
  let numericalCols := (types.filter (fun t => t.2 = ColumnType.numeric)).map Prod.fst
  let categoricalCols := (types.filter (fun t => t.2 = ColumnType.categorical)).map Prod.fst
  let datetimeCols := (types.filter (fun t => t.2 = ColumnType.datetime)).map Prod.fst
  let scatter ← scatterPass df (orderedPairs numericalCols)
  let grouped ← groupedBarPass df (categoricalCols.take 5) (numericalCols.take 3)
  let lines ← lineChartPass df datetimeCols numericalCols
  let multi ← multiColumnPass numericalCols
  return ⟨single, scatter ++ grouped ++ lines, multi⟩

/-- A column whose non-null values form exactly the numeric set
`{0, 1}` (both present, nothing else), the hypothesis of the claim
about 0/1 flag columns. -/
def formsSet01 (col : List Value) : Bool :=
  let nn := dropna col
  ¬nn.isEmpty && nn.all (fun v => v.numVal = some 0 ∨ v.numVal = some 1)
    && nn.any (fun v => v.numVal = some 0) && nn.any (fun v => v.numVal = some 1)

/-! ### Concrete tables used by the counterexamples and witnesses -/

/-- A 12-row date column: ten `2020-01-15` and two `2021-03-20`. -/
def c1col : List Value :=
  List.replicate 10 (Value.vStr "2020-01-15") ++ List.replicate 2 (Value.vStr "2021-03-20")

/-- One sub-multiset of size 10 the unseeded sampler can draw from
`c1col`: only the 2020 dates. -/
def c1sampleA : List Value := List.replicate 10 (Value.vStr "2020-01-15")

/-- Another valid draw: nine 2020 dates and one 2021 date. -/
def c1sampleB : List Value :=
  List.replicate 9 (Value.vStr "2020-01-15") ++ [Value.vStr "2021-03-20"]

/-- Three all-numeric columns: one distinct ColumnType, three columns. -/
def c3df : DataFrame :=
  ⟨[("a", [Value.vInt 2, Value.vInt 7]),
    ("b", [Value.vInt 3, Value.vInt 8]),
    ("c", [Value.vInt 4, Value.vInt 9])]⟩

/-- A two-column table with a numeric column `x = [1, 2, 3]`. -/
def c5df : DataFrame :=
  ⟨[("x", [Value.vInt 1, Value.vInt 2, Value.vInt 3]),
    ("y", [Value.vStr "u", Value.vStr "v", Value.vStr "w"])]⟩

/-- Detected types of `c5df`. -/
def c5types : List (String × ColumnType) :=
  [("x", ColumnType.numeric), ("y", ColumnType.text)]

/-- A float-dtype 0/1 flag column with a null, as `read_csv` produces
for a 0/1 column containing an empty cell. -/
def c6col : List Value :=
  [Value.vFloat 0, Value.vFloat 1, Value.vFloat 0, Value.vNull]

/-- A categorical column (2 distinct of 6) and a numeric column. -/
def c7df : DataFrame :=
  ⟨[("c", [Value.vStr "a", Value.vStr "b", Value.vStr "a",
           Value.vStr "b", Value.vStr "a", Value.vStr "b"]),
    ("n", [Value.vInt 3, Value.vInt 4, Value.vInt 5,
           Value.vInt 6, Value.vInt 7, Value.vInt 8])]⟩

/-- Detected types of `c7df`. -/
def c7types : List (String × ColumnType) :=
  [("c", ColumnType.categorical), ("n", ColumnType.numeric)]

/-- One categorical column and four numeric columns. -/
def c8df : DataFrame :=
  ⟨[("c", [Value.vStr "a", Value.vStr "b", Value.vStr "a",
           Value.vStr "b", Value.vStr "a", Value.vStr "b"]),
    ("d1", [Value.vInt 3, Value.vInt 4, Value.vInt 5,
            Value.vInt 6, Value.vInt 7, Value.vInt 8]),
    ("d2", [Value.vInt 13, Value.vInt 14, Value.vInt 15,
            Value.vInt 16, Value.vInt 17, Value.vInt 18]),
    ("d3", [Value.vInt 23, Value.vInt 24, Value.vInt 25,
            Value.vInt 26, Value.vInt 27, Value.vInt 28]),
    ("d4", [Value.vInt 33, Value.vInt 34, Value.vInt 35,
            Value.vInt 36, Value.vInt 37, Value.vInt 38])]⟩

/-- Detected types of `c8df`. -/
def c8types : List (String × ColumnType) :=
  [("c", ColumnType.categorical), ("d1", ColumnType.numeric),
   ("d2", ColumnType.numeric), ("d3", ColumnType.numeric), ("d4", ColumnType.numeric)]

/-- Two all-null columns: the single-column pass early-returns on
both, isolating the combination branches. -/
def c8nullDf : DataFrame :=
  ⟨[("c", [Value.vNull, Value.vNull]), ("n", [Value.vNull, Value.vNull])]⟩

/-- Types for `c8nullDf` as a caller can force them with
`override_column_types`. -/
def c8nullTypes : List (String × ColumnType) :=
  [("c", ColumnType.categorical), ("n", ColumnType.numeric)]

/-- Two numeric columns, the first constant. -/
def c9df : DataFrame :=
  ⟨[("a", [Value.vInt 2, Value.vInt 2]),
    ("b", [Value.vInt 1, Value.vInt 2])]⟩

/-- Detected types of `c9df`. -/
def c9types : List (String × ColumnType) :=
  [("a", ColumnType.numeric), ("b", ColumnType.numeric)]

/-- The correlation matrix of `c9df`: the constant column `a` has NaN
against everything, including itself. -/
def c9mat : CorrMatrix :=
  [("a", [("a", none), ("b", none)]),
   ("b", [("a", none), ("b", some (1, 1))])]

/-- A diagonal correlation entry degenerates to NaN exactly when the
column has no numeric observations or zero squared deviation
(constant column). -/
def diagDegenerate (c : List Value) : Bool :=
  (pairedObs c c).length = 0 || sumSqDev ((pairedObs c c).map Prod.fst) = 0

/-! ## Theorems -/

/-- Claim C1 (failing input): column type detection is NOT
run-to-run deterministic.  For the 12-value date column `c1col`, the
unseeded 10-value sample can be drawn as `c1sampleA` (only 2020 dates,
so the single-year guard rejects the datetime hypothesis and the
column classifies categorical) or as `c1sampleB` (a 2021 date
included, so the column classifies datetime): two runs on the same
input can return different ColumnTypes. -/
theorem classifier_nondeterministic :
    ValidSample (dropna c1col) c1sampleA ∧ ValidSample (dropna c1col) c1sampleB ∧
    detect_column_type c1col c1sampleA = ColumnType.categorical ∧
    detect_column_type c1col c1sampleB = ColumnType.datetime ∧
    ColumnType.categorical ≠ ColumnType.datetime := by with_unfolding_all decide

/-- Claim C3 (counterexample): `c3df` has three columns that all
classify numeric — one distinct ColumnType, fewer than 3 — yet the
scorer applies no column-variety penalty and emits no matching
recommendation, because the source tests `len(self.column_types)`
(the number of columns), not the number of distinct types. -/
theorem variety_penalty_counterexample :
    detectedTypesShort c3df = [ColumnType.numeric, ColumnType.numeric, ColumnType.numeric] ∧
    numDistinctTypesShort c3df = 1 ∧
    QualityRec.lowVariety ∉ (calculate_data_quality_score c3df).2 ∧
    (calculate_data_quality_score c3df).1 = 85 := by with_unfolding_all decide

/-- Claim C4 (failing input): for a chi-square result with
p = 0.01 < 0.05, the significant flag is true but the interpretation
reads "Variables are independent" — the source inserts "not " when
`p >= significance_level`, i.e. exactly when the test is NOT
significant, the inverse of what the claim (and the statistic's
meaning) require. -/
theorem chi_square_interpretation_inverted :
    (chiSquareTestResult "a" "b" 5 (1 / 100) SIGNIFICANCE_LEVEL).significant = true ∧
    (chiSquareTestResult "a" "b" 5 (1 / 100) SIGNIFICANCE_LEVEL).interpretation =
      "Variables are independent" ∧
    (1 : ℚ) / 100 < SIGNIFICANCE_LEVEL := by with_unfolding_all decide

/-- Claim C5 (counterexample): for the numeric column
`x = [1, 2, 3]` of `c5df`, the reported std has square 1 (pandas
`std()`, normalized by n−1) while the population variance is 2/3, so
the reported std is not the population standard deviation. -/
theorem std_not_population_counterexample :
    detectedTypesShort c5df = [ColumnType.numeric, ColumnType.text] ∧
    analyze_numerical_columns c5df c5types = [("x", ⟨3, 2, some 1⟩)] ∧
    varPop [1, 2, 3] = 2 / 3 ∧
    some (varPop [1, 2, 3]) ≠ (⟨3, 2, some 1⟩ : NumericalStatsM).std_sq := by with_unfolding_all decide

/-- Claim C6 (counterexample): the float-dtype column
`c6col = [0.0, 1.0, 0.0, NaN]` has non-null values forming exactly the
set {0, 1}, yet classifies numeric, not boolean: `astype(str)` renders
float cells as "0.0"/"1.0", which are not in the canonical pair
{"1","0"}. -/
theorem zero_one_float_counterexample :
    formsSet01 c6col = true ∧
    detectShort c6col = ColumnType.numeric ∧
    detectShort c6col ≠ ColumnType.boolean := by with_unfolding_all decide

/-- Claim C7 (failing input): the chart recommender never produces a
scored recommendation at all.  `_calculate_chart_score`
unconditionally evaluates `ChartType.HISTOGRAM.value` (line 261) on
an enum with only lowercase members, so it raises `AttributeError`
on every call: on `c7df` (a non-empty categorical column and a
non-empty numeric column) both the single-column recommender and the
dataset recommender raise instead of returning recommendations
carrying scores and suitability flags. -/
theorem chart_recommender_raises :
    detectedTypesShort c7df = [ColumnType.categorical, ColumnType.numeric] ∧
    recommend_charts_for_column (c7df.get "c") ColumnType.categorical =
      Except.error "HISTOGRAM" ∧
    recommend_charts_for_column (c7df.get "n") ColumnType.numeric =
      Except.error "HISTOGRAM" ∧
    recommend_charts_for_dataset c7df c7types = Except.error "HISTOGRAM" := by
  with_unfolding_all decide

/-- Claim C8 (failing input): on `c8df` the pairs `("c", "d1")` and
`("c", "d4")` both pass the grouped-bar suitability test, yet
`recommend_charts_for_dataset` raises `AttributeError: HISTOGRAM` in
its single-column pass before reaching the combination loops, so no
grouped-bar recommendation with score 0.8 is ever produced; and even
when the single-column pass survives (all-null columns typed
categorical/numeric, `c8nullDf`), the grouped-bar append itself
raises `AttributeError: GROUPED_BAR` at
`ChartType.GROUPED_BAR.value` (line 201). -/
theorem grouped_bar_never_produced :
    detectedTypesShort c8df = [ColumnType.categorical, ColumnType.numeric,
      ColumnType.numeric, ColumnType.numeric, ColumnType.numeric] ∧
    is_suitable_for_grouped_bar (c8df.get "c") (c8df.get "d1") = true ∧
    is_suitable_for_grouped_bar (c8df.get "c") (c8df.get "d4") = true ∧
    recommend_charts_for_dataset c8df c8types = Except.error "HISTOGRAM" ∧
    recommend_charts_for_dataset c8nullDf c8nullTypes = Except.error "GROUPED_BAR" := by
  with_unfolding_all decide

/-- Claim C10: for a column whose values are all null, the
single-column chart recommender returns the empty list, whatever
ColumnType is passed in: `dropna` leaves nothing and the guard
returns before any rule is scored — in particular before the broken
uppercase enum access in `_calculate_chart_score` can raise. -/
theorem all_null_no_recommendations (col : List Value) (t : ColumnType)
    (h : ∀ v ∈ col, v = Value.vNull) :
    recommend_charts_for_column col t = Except.ok [] := by
  unfold recommend_charts_for_column
  have hd : dropna col = [] := by
    apply List.filter_eq_nil_iff.2
    intro v hv
    simp [h v hv]
  rw [hd]
  rfl

/-- Witness for C10 at the concrete all-null column `[NaN, NaN]`. -/
theorem all_null_no_recommendations_witness :
    recommend_charts_for_column [Value.vNull, Value.vNull] ColumnType.text = Except.ok [] :=
  all_null_no_recommendations [Value.vNull, Value.vNull] ColumnType.text (by decide)

/-- Claim C6 (amended): every column with at least one non-null value
whose non-null values all render (lowercased) as "1" or "0" — int or
string 0/1 flags — classifies boolean and never numeric, because the
boolean check runs first in the classifier chain; float-dtype 0/1
columns, whose cells render "0.0"/"1.0", classify numeric instead
(see the counterexample). -/
theorem zero_one_strings_boolean (colRaw sample : List Value)
    (hne : dropna colRaw ≠ [])
    (hall : ∀ v ∈ dropna colRaw, (pyStr v).toLower = "1" ∨ (pyStr v).toLower = "0") :
    detect_column_type colRaw sample = ColumnType.boolean := by
  unfold detect_column_type
  have hb : is_boolean_column (dropna colRaw) = true := by
    unfold is_boolean_column
    apply List.any_eq_true.2
    refine ⟨["1", "0"], by simp [boolean_patterns], ?_⟩
    apply List.all_eq_true.2
    intro s hs
    rcases List.mem_map.1 (List.mem_dedup.1 hs) with ⟨v, hv, rfl⟩
    rcases hall v hv with h1 | h1 <;> simp [h1]
  have hne' : (dropna colRaw).isEmpty = false := by
    simp [List.isEmpty_iff, hne]
  simp [hne', hb]

/-- Witness for C6 (amended) at the int-dtype flag column `[1, 0]`. -/
theorem zero_one_strings_boolean_witness :
    detect_column_type [Value.vInt 1, Value.vInt 0] [Value.vInt 1, Value.vInt 0] =
      ColumnType.boolean :=
  zero_one_strings_boolean [Value.vInt 1, Value.vInt 0] [Value.vInt 1, Value.vInt 0]
    (by with_unfolding_all decide) (by with_unfolding_all decide)

/-- Expansion of a sum of squared deviations about an arbitrary
center. -/
lemma sum_sq_sub_eq (c : ℚ) (xs : List ℚ) :
    (xs.map (fun x => (x - c) ^ 2)).sum =
      (xs.map (fun x => x ^ 2)).sum - 2 * c * xs.sum + (xs.length : ℚ) * c ^ 2 := by
  induction xs with
  | nil => simp
  | cons x xs ih =>
    simp only [List.map_cons, List.sum_cons, ih, List.length_cons]
    push_cast
    ring

/-- The sum of squared deviations from the mean, in raw-moment form. -/
lemma sumSqDev_eq (xs : List ℚ) (h : xs ≠ []) :
    sumSqDev xs = (xs.map (fun x => x ^ 2)).sum - xs.sum ^ 2 / (xs.length : ℚ) := by
  have hn : (xs.length : ℚ) ≠ 0 :=
    Nat.cast_ne_zero.2 (fun h0 => h (List.length_eq_zero.1 h0))
  unfold sumSqDev meanQ
  rw [sum_sq_sub_eq]
  field_simp
  ring

/-- Claim C5 (amended): the std reported for a numeric column is the
SAMPLE standard deviation (pandas `std()`, ddof = 1), not the
population one: for every reported column with at least two coerced
values, std² = (n·Σx² − (Σx)²) / (n·(n−1)).  (With one value pandas
returns NaN.) -/
theorem std_is_sample_std (df : DataFrame) (types : List (String × ColumnType))
    (name : String) (s : NumericalStatsM)
    (hmem : (name, s) ∈ analyze_numerical_columns df types)
    (h2 : 2 ≤ s.count) :
    s.std_sq = some (
      (((coerceDropna (df.get name)).length : ℚ) *
          ((coerceDropna (df.get name)).map (fun x => x ^ 2)).sum
        - (coerceDropna (df.get name)).sum ^ 2)
      / (((coerceDropna (df.get name)).length : ℚ) *
          (((coerceDropna (df.get name)).length : ℚ) - 1))) := by
  rcases List.mem_filterMap.1 hmem with ⟨t, ht, he⟩
  dsimp only at he
  split_ifs at he with hz
  case _ =>
    rw [Option.some.injEq, Prod.mk.injEq] at he
    obtain ⟨rfl, rfl⟩ := he
    dsimp only at h2 ⊢
    set cd := coerceDropna (df.get t.1) with hcd
    have hne : cd ≠ [] := by
      intro h0
      rw [h0] at h2
      simp at h2
    have hnq : (2 : ℚ) ≤ (cd.length : ℚ) := by exact_mod_cast h2
    have hn0 : (cd.length : ℚ) ≠ 0 := by linarith
    have hn1 : (cd.length : ℚ) - 1 ≠ 0 := by
      intro h0
      have : (cd.length : ℚ) = 1 := by linarith
      linarith
    unfold varSample
    rw [if_pos h2, sumSqDev_eq cd hne]
    rw [Option.some.injEq]
    field_simp
    ring

/-- Witness for C5 (amended) at column `x = [1, 2, 3]` of `c5df`:
the reported std² is 1 = (3·14 − 36) / (3·2). -/
theorem std_is_sample_std_witness :
    (⟨3, 2, some 1⟩ : NumericalStatsM).std_sq = some (
      (((coerceDropna (c5df.get "x")).length : ℚ) *
          ((coerceDropna (c5df.get "x")).map (fun x => x ^ 2)).sum
        - (coerceDropna (c5df.get "x")).sum ^ 2)
      / (((coerceDropna (c5df.get "x")).length : ℚ) *
          (((coerceDropna (c5df.get "x")).length : ℚ) - 1))) :=
  std_is_sample_std c5df c5types "x" ⟨3, 2, some 1⟩
    (by with_unfolding_all decide) (by decide)

/-- The missing-value step never increases the running score. -/
lemma missingStep_fst_le (n : ℕ) (a : ℚ × List QualityRec) (c : String × List Value) :
    (missingStep n a c).1 ≤ a.1 := by
  unfold missingStep
  dsimp only
  split_ifs <;> (try dsimp only) <;> linarith

/-- The missing-value pass never increases the running score. -/
lemma foldl_missingStep_fst_le (n : ℕ) :
    ∀ (l : List (String × List Value)) (a : ℚ × List QualityRec),
      (l.foldl (missingStep n) a).1 ≤ a.1
  | [], _ => le_refl _
  | c :: l, a =>
    le_trans (foldl_missingStep_fst_le n l (missingStep n a c)) (missingStep_fst_le n a c)

/-- The missing-value pass only appends missing-value
recommendations. -/
lemma foldl_missingStep_snd_mem (n : ℕ) :
    ∀ (l : List (String × List Value)) (a : ℚ × List QualityRec) (r : QualityRec),
      r ∈ (l.foldl (missingStep n) a).2 →
      r ∈ a.2 ∨ ∃ c, r = QualityRec.missingHigh c ∨ r = QualityRec.missingMed c := by
  intro l
  induction l with
  | nil => exact fun a r h => Or.inl h
  | cons c l ih =>
    intro a r h
    rcases ih (missingStep n a c) r h with h' | h'
    · unfold missingStep at h'
      dsimp only at h'
      split_ifs at h'
      · rcases List.mem_append.1 h' with h'' | h''
        · exact Or.inl h''
        · simp only [List.mem_singleton] at h''
          exact Or.inr ⟨c.1, Or.inl h''⟩
      · rcases List.mem_append.1 h' with h'' | h''
        · exact Or.inl h''
        · simp only [List.mem_singleton] at h''
          exact Or.inr ⟨c.1, Or.inr h''⟩
      · exact Or.inl h'
    · exact Or.inr h'

/-- The variety recommendation never comes from the missing-value
pass. -/
lemma lowVariety_not_mem_foldl (n : ℕ) (l : List (String × List Value)) :
    QualityRec.lowVariety ∉ (l.foldl (missingStep n) (100, ([] : List QualityRec))).2 := by
  intro h
  rcases foldl_missingStep_snd_mem n l _ _ h with h' | ⟨c, h' | h'⟩ <;> simp at h'

/-- Claim C2: the data quality score is clamped into [0, 100]: the
score starts at 100, every penalty subtracts a nonnegative amount, and
the returned value is `max 0` of the result. -/
theorem quality_score_bounds (df : DataFrame) :
    0 ≤ (calculate_data_quality_score df).1 ∧ (calculate_data_quality_score df).1 ≤ 100 := by
  unfold calculate_data_quality_score
  have h1 := foldl_missingStep_fst_le df.nrows df.cols (100, [])
  have hdup : (0 : ℚ) ≤ min 20 ((duplicatedSum df : ℚ) / (df.nrows : ℚ) * 100) := by
    refine le_min (by norm_num) ?_
    positivity
  dsimp only
  constructor
  · exact le_max_left _ _
  · refine max_le (by norm_num) ?_
    split_ifs <;> (try dsimp only) <;> simp only at h1 <;> linarith

/-- Claim C3 (amended): the 10-point column-variety penalty and its
recommendation fire exactly when the table has fewer than 3 COLUMNS
(the source tests `len(self.column_types)`, the number of columns),
independent of how many distinct ColumnTypes appear. -/
theorem variety_penalty_iff_few_columns (df : DataFrame) :
    QualityRec.lowVariety ∈ (calculate_data_quality_score df).2 ↔ df.cols.length < 3 := by
  unfold calculate_data_quality_score
  dsimp only
  have hfold := lowVariety_not_mem_foldl df.nrows df.cols
  split_ifs <;>
    simp only [List.mem_append, List.mem_singleton, List.append_assoc] <;>
    simp_all

/-- A pair drawn from a list zipped with itself has equal
components. -/
lemma mem_zip_self {α : Type} (l : List α) (p : α × α) (h : p ∈ l.zip l) : p.1 = p.2 := by
  induction l with
  | nil => simp at h
  | cons x t ih =>
    rw [List.zip_cons_cons] at h
    rcases List.mem_cons.1 h with rfl | h'
    · rfl
    · exact ih h'

/-- Swapping the column order swaps the paired observations. -/
lemma pairedObs_swap (c1 c2 : List Value) :
    pairedObs c2 c1 = (pairedObs c1 c2).map Prod.swap := by
  unfold pairedObs
  rw [← List.zip_swap c1 c2, List.filterMap_map, List.map_filterMap]
  apply List.filterMap_congr
  intro p _
  rcases p with ⟨a, b⟩
  cases ha : a.numVal <;> cases hb : b.numVal <;>
    simp [Function.comp, Prod.swap, ha, hb]

/-- The `nancorr` kernel is invariant under swapping the two
coordinates of every observation: the covariance is symmetric and the
divisor only sees the product of the two squared deviations. -/
lemma corrKernel_swap (ps : List (ℚ × ℚ)) :
    corrKernel (ps.map Prod.swap) = corrKernel ps := by
  unfold corrKernel
  simp only [List.length_map, List.map_map, Function.comp_def, Prod.fst_swap, Prod.snd_swap]
  by_cases h0 : ps.length = 0
  · simp [h0]
  · rw [if_neg h0, if_neg h0]
    try dsimp only
    have hxy : (ps.map (fun p =>
          (p.2 - meanQ (ps.map (fun p => p.2))) * (p.1 - meanQ (ps.map (fun p => p.1))))).sum =
        (ps.map (fun p =>
          (p.1 - meanQ (ps.map (fun p => p.1))) * (p.2 - meanQ (ps.map (fun p => p.2))))).sum := by
      apply congrArg
      exact List.map_congr_left (fun p _ => mul_comm _ _)
    rw [hxy, mul_comm ((ps.map (fun p => (p.2 - meanQ (ps.map (fun p => p.2))) ^ 2)).sum)
      ((ps.map (fun p => (p.1 - meanQ (ps.map (fun p => p.1))) ^ 2)).sum)]

/-- The correlation entry is symmetric in its two columns. -/
lemma corrEntry_symm (c1 c2 : List Value) : corrEntry c1 c2 = corrEntry c2 c1 := by
  unfold corrEntry
  rw [pairedObs_swap c1 c2, corrKernel_swap]

/-- Both components of a self-paired observation agree. -/
lemma pairedObs_self_eq (c : List Value) :
    ∀ p ∈ pairedObs c c, p.1 = p.2 := by
  intro p hp
  rcases List.mem_filterMap.1 hp with ⟨q, hq, hgq⟩
  have hq12 : q.1 = q.2 := mem_zip_self c q hq
  rcases q with ⟨u, v⟩
  dsimp only at hq12
  subst hq12
  cases hu : u.numVal with
  | none => simp [hu] at hgq
  | some x =>
    simp only [hu] at hgq
    rw [Option.some.injEq] at hgq
    subst hgq
    rfl

/-- The diagonal correlation entry: 1.0 for a column with at least one
observation and nonzero squared deviation, NaN otherwise. -/
lemma corrEntry_diag (c : List Value) :
    corrEntry c c = if diagDegenerate c then none else some (1, 1) := by
  unfold corrEntry corrKernel diagDegenerate
  have hsnd : (pairedObs c c).map Prod.snd = (pairedObs c c).map Prod.fst :=
    List.map_congr_left (fun p hp => (pairedObs_self_eq c p hp).symm)
  have hyy : ((pairedObs c c).map
        (fun p => (p.2 - meanQ ((pairedObs c c).map Prod.snd)) ^ 2)).sum =
      ((pairedObs c c).map
        (fun p => (p.1 - meanQ ((pairedObs c c).map Prod.fst)) ^ 2)).sum := by
    apply congrArg
    apply List.map_congr_left
    intro p hp
    rw [pairedObs_self_eq c p hp, hsnd]
  have hxy : ((pairedObs c c).map
        (fun p => (p.1 - meanQ ((pairedObs c c).map Prod.fst)) *
          (p.2 - meanQ ((pairedObs c c).map Prod.snd)))).sum =
      ((pairedObs c c).map
        (fun p => (p.1 - meanQ ((pairedObs c c).map Prod.fst)) ^ 2)).sum := by
    apply congrArg
    apply List.map_congr_left
    intro p hp
    rw [pairedObs_self_eq c p hp, hsnd, ← sq]
  have hSdev : sumSqDev ((pairedObs c c).map Prod.fst) =
      ((pairedObs c c).map
        (fun p => (p.1 - meanQ ((pairedObs c c).map Prod.fst)) ^ 2)).sum := by
    unfold sumSqDev
    rw [List.map_map]
    rfl
  have hSnn : 0 ≤ ((pairedObs c c).map
      (fun p => (p.1 - meanQ ((pairedObs c c).map Prod.fst)) ^ 2)).sum := by
    apply List.sum_nonneg
    intro x hx
    rcases List.mem_map.1 hx with ⟨p, _, rfl⟩
    exact sq_nonneg _
  dsimp only
  rw [hyy, hxy, hSdev]
  generalize hgen : ((pairedObs c c).map
    (fun p => (p.1 - meanQ ((pairedObs c c).map Prod.fst)) ^ 2)).sum = S
  rw [hgen] at hSnn
  by_cases h0 : (pairedObs c c).length = 0
  · simp [h0]
  · rw [if_neg h0]
    by_cases hz : S = 0
    · simp [h0, hz]
    · have hpos : 0 < S := lt_of_le_of_ne hSnn (Ne.symm hz)
      have hssz : S * S ≠ 0 := mul_ne_zero hz hz
      rw [if_neg hssz, if_pos hpos,
        if_neg (show ¬((decide ((pairedObs c c).length = 0) ||
          decide (S = 0)) = true) by simp [h0, hz]),
        Option.some.injEq, Prod.mk.injEq]
      exact ⟨rfl, by rw [sq]; exact div_self hssz⟩

/-- Looking up a key in an association list built by tabulating a
function over a name list. -/
lemma lookup_tabulate {β : Type} (g : String → β) (a : String) :
    ∀ names : List String,
      List.lookup a (names.map (fun x => (x, g x))) =
        if a ∈ names then some (g a) else none
  | [] => by simp
  | x :: t => by
    by_cases h : a = x
    · subst h
      simp [List.lookup_cons]
    · rw [List.map_cons, List.lookup_cons, beq_eq_false_iff_ne.2 h,
        lookup_tabulate g a t]
      simp [List.mem_cons, h]

/-- Entries of the tabulated nested correlation dict. -/
lemma matLookup_tabulate (names : List String) (f : String → String → CorrEntry)
    (a b : String) :
    matLookup (names.map (fun x => (x, names.map (fun y => (y, f x y))))) a b =
      if a ∈ names ∧ b ∈ names then some (f a b) else none := by
  unfold matLookup
  rw [lookup_tabulate (fun x => names.map (fun y => (y, f x y))) a names]
  by_cases ha : a ∈ names
  · rw [if_pos ha]
    rw [Option.some_bind]
    rw [lookup_tabulate (fun y => f a y) b names]
    by_cases hb : b ∈ names
    · rw [if_pos hb, if_pos ⟨ha, hb⟩]
    · rw [if_neg hb, if_neg (fun h => hb h.2)]
  · rw [if_neg ha]
    rw [if_neg (fun h => ha h.1)]
    rfl

/-- Claim C9 (amended): whenever the correlation analysis returns a
matrix, the matrix is symmetric (`matrix[a][b] = matrix[b][a]` for
all names); a diagonal entry equals 1.0 exactly for a column whose
paired observations are nonempty and non-constant — a constant or
empty column yields NaN on its diagonal (see the counterexample). -/
theorem corr_matrix_symm_diag (df : DataFrame) (types : List (String × ColumnType))
    (m : CorrMatrix) (hm : analyze_correlations df types = some m) :
    (∀ a b : String, matLookup m a b = matLookup m b a) ∧
    (∀ p ∈ m, (diagDegenerate (df.get p.1) = false →
        matLookup m p.1 p.1 = some (some (1, 1))) ∧
      (diagDegenerate (df.get p.1) = true → matLookup m p.1 p.1 = some none)) := by
  unfold analyze_correlations at hm
  dsimp only at hm
  split_ifs at hm
  rw [Option.some.injEq] at hm
  subst hm
  constructor
  · intro a b
    rw [matLookup_tabulate, matLookup_tabulate]
    by_cases ha : a ∈ (((types.filter (fun t => t.2 = ColumnType.numeric)).map Prod.fst).filter
        (fun name => (df.get name).all (fun v => v.isNum || v = Value.vNull))) <;>
      by_cases hb : b ∈ (((types.filter (fun t => t.2 = ColumnType.numeric)).map Prod.fst).filter
        (fun name => (df.get name).all (fun v => v.isNum || v = Value.vNull))) <;>
      simp [ha, hb, corrEntry_symm]
  · intro p hp
    have hp1 : p.1 ∈ (((types.filter (fun t => t.2 = ColumnType.numeric)).map Prod.fst).filter
        (fun name => (df.get name).all (fun v => v.isNum || v = Value.vNull))) := by
      rcases List.mem_map.1 hp with ⟨x, hx, rfl⟩
      exact hx
    constructor <;> intro hdeg <;>
      rw [matLookup_tabulate, if_pos ⟨hp1, hp1⟩, corrEntry_diag, hdeg] <;> rfl

/-- Witness for C9 (amended) at the concrete matrix of `c9df`. -/
theorem corr_matrix_symm_diag_witness :
    (∀ a b : String, matLookup c9mat a b = matLookup c9mat b a) ∧
    (∀ p ∈ c9mat, (diagDegenerate (c9df.get p.1) = false →
        matLookup c9mat p.1 p.1 = some (some (1, 1))) ∧
      (diagDegenerate (c9df.get p.1) = true → matLookup c9mat p.1 p.1 = some none)) :=
  corr_matrix_symm_diag c9df c9types c9mat (by with_unfolding_all decide)

/-- Claim C9 (counterexample): for `c9df`, whose columns both classify
numeric but whose column `a` is constant, the correlation analysis
returns a matrix whose diagonal entry at `a` is NaN (encoded `none`),
not 1.0 (encoded `some (1, 1)`). -/
theorem corr_diagonal_counterexample :
    detectedTypesShort c9df = [ColumnType.numeric, ColumnType.numeric] ∧
    analyze_correlations c9df c9types = some c9mat ∧
    matLookup c9mat "a" "a" = some none ∧
    some (none : CorrEntry) ≠ some (some ((1 : ℤ), (1 : ℚ))) := by with_unfolding_all decide

end Apollo
